import Mathlib

/-!
Verification development for the socorro time-partitioned schema manager
(`socorro/database/schema.py`).

Dates are embedded as proleptic-Gregorian ordinals (`Int`), matching
Python's `datetime.date.toordinal`: ordinal 1 is a Monday, so
`d.weekday() = (d - 1) % 7` (Python's `%` on a positive modulus agrees
with `Int.emod`).  `datetime.timedelta` arithmetic becomes plain integer
addition (one day per unit).

Database-touching code is embedded as explicitly state-passing functions
over `DbState` (the event trace so far, a statement counter and the
module-level `partitionCreationHistory` registry), with an `Oracle`
choosing, for every executed statement, whether it succeeds or raises
and with which `psycopg2` exception class.
-/

namespace Socorro

/-! ### The weekly window generator (schema.py lines 15-34) -/

/-- The `while aDate <= maxDate` loop body of the `anIterator` generator
inside `mondayPairsIteratorFactory`: starting at `aDate`, yield
`(aDate, aDate + oneWeek)` pairs until `aDate` passes `maxDate`. -/
def windowsFrom (maxDate : Int) (aDate : Int) : List (Int × Int) :=
  if aDate ≤ maxDate then (aDate, aDate + 7) :: windowsFrom maxDate (aDate + 7)
  else []
termination_by (maxDate + 1 - aDate).toNat
decreasing_by simp_wf; omega

/-- `mondayPairsIteratorFactory(minDate, maxDate)` (schema.py lines 15-34).
The `isinstance` check disappears in the typed embedding (both arguments
are dates by construction); the `maxDate < minDate` check raises
`ValueError`, embedded as `Except.error`.  The returned generator is
embedded as the full (finite) list of pairs it yields:
`aDate` starts at `minDate - timedelta(minDate.weekday())`, i.e. the
Monday on or before `minDate`. -/
def mondayPairsIteratorFactory (minDate maxDate : Int) : Except String (List (Int × Int)) :=
  if maxDate < minDate then Except.error "minDate must be <= maxDate"
  else Except.ok (windowsFrom maxDate (minDate - (minDate - 1) % 7))

theorem windowsFrom_cons {maxDate aDate : Int} (h : aDate ≤ maxDate) :
    windowsFrom maxDate aDate = (aDate, aDate + 7) :: windowsFrom maxDate (aDate + 7) := by
  rw [windowsFrom]; simp [h]

theorem windowsFrom_nil {maxDate aDate : Int} (h : ¬ aDate ≤ maxDate) :
    windowsFrom maxDate aDate = [] := by
  rw [windowsFrom]; simp [h]

theorem windowsFrom_single {maxDate aDate : Int} (h1 : aDate ≤ maxDate)
    (h2 : maxDate < aDate + 7) : windowsFrom maxDate aDate = [(aDate, aDate + 7)] := by
  rw [windowsFrom_cons h1, windowsFrom_nil (by omega)]

theorem windowsFrom_span (maxDate : Int) :
    ∀ (n : Nat) (aDate : Int), (maxDate + 1 - aDate).toNat ≤ n →
      ∀ p ∈ windowsFrom maxDate aDate, p.2 = p.1 + 7 := by
  intro n
  induction n with
  | zero =>
    intro aDate h p hp
    rw [windowsFrom_nil (by omega)] at hp
    simp at hp
  | succ n ih =>
    intro aDate h p hp
    by_cases hle : aDate ≤ maxDate
    · rw [windowsFrom_cons hle] at hp
      rcases List.mem_cons.mp hp with h1 | h1
      · subst h1; rfl
      · exact ih (aDate + 7) (by omega) p h1
    · rw [windowsFrom_nil hle] at hp
      simp at hp

theorem windowsFrom_head {maxDate aDate : Int} (h : aDate ≤ maxDate) :
    (windowsFrom maxDate aDate).head? = some (aDate, aDate + 7) := by
  rw [windowsFrom_cons h]; rfl

theorem windowsFrom_chain (maxDate : Int) :
    ∀ (n : Nat) (aDate : Int), (maxDate + 1 - aDate).toNat ≤ n →
      List.Chain' (fun p q => p.2 = q.1) (windowsFrom maxDate aDate) := by
  intro n
  induction n with
  | zero =>
    intro aDate h
    rw [windowsFrom_nil (by omega)]
    exact List.chain'_nil
  | succ n ih =>
    intro aDate h
    by_cases hle : aDate ≤ maxDate
    · rw [windowsFrom_cons hle]
      refine List.Chain'.cons' (ih (aDate + 7) (by omega)) ?_
      intro q hq
      by_cases hle2 : aDate + 7 ≤ maxDate
      · rw [windowsFrom_head hle2] at hq
        cases hq; rfl
      · rw [windowsFrom_nil hle2] at hq
        simp at hq
    · rw [windowsFrom_nil hle]
      exact List.chain'_nil

theorem windowsFrom_last (maxDate : Int) :
    ∀ (n : Nat) (aDate : Int), (maxDate + 1 - aDate).toNat ≤ n → aDate ≤ maxDate →
      ∃ l, (windowsFrom maxDate aDate).getLast? = some l ∧ l.1 ≤ maxDate ∧ maxDate < l.2 := by
  intro n
  induction n with
  | zero => intro aDate h hle; omega
  | succ n ih =>
    intro aDate h hle
    by_cases hle2 : aDate + 7 ≤ maxDate
    · obtain ⟨l, hl, hl1, hl2⟩ := ih (aDate + 7) (by omega) hle2
      refine ⟨l, ?_, hl1, hl2⟩
      rw [windowsFrom_cons hle]
      cases hw : windowsFrom maxDate (aDate + 7) with
      | nil => rw [hw] at hl; simp at hl
      | cons a as =>
        rw [hw] at hl
        rw [List.getLast?_cons_cons]
        exact hl
    · refine ⟨(aDate, aDate + 7), ?_, hle, by omega⟩
      rw [windowsFrom_single hle (by omega)]
      rfl

/-- C1: for every pair of dates `minDate ≤ maxDate`, `mondayPairsIteratorFactory`
yields a non-empty sequence of pairs `(start, next)` whose first `start` is the
Monday on or before `minDate` (a Monday `≤ minDate` and `> minDate - 7`), every
pair spans exactly 7 days (`next = start + 7`), consecutive pairs are contiguous
(each pair's `next` equals the following pair's `start`), and the last pair's
half-open span `[start, next)` contains `maxDate`.  A date is a Monday exactly
when its weekday `(d - 1) % 7` is zero. -/
theorem mondayPairs_weekly_window_coverage (minDate maxDate : Int) (h : minDate ≤ maxDate) :
    ∃ ws, mondayPairsIteratorFactory minDate maxDate = Except.ok ws ∧
      ws ≠ [] ∧
      (∃ first, ws.head? = some first ∧
        (first.1 - 1) % 7 = 0 ∧ first.1 ≤ minDate ∧ minDate - 7 < first.1) ∧
      (∀ p ∈ ws, p.2 = p.1 + 7) ∧
      List.Chain' (fun p q => p.2 = q.1) ws ∧
      (∃ last, ws.getLast? = some last ∧ last.1 ≤ maxDate ∧ maxDate < last.2) := by
  have hmod1 : 0 ≤ (minDate - 1) % 7 := Int.emod_nonneg _ (by norm_num)
  have hmod2 : (minDate - 1) % 7 < 7 := Int.emod_lt_of_pos _ (by norm_num)
  set a := minDate - (minDate - 1) % 7 with ha
  have haM : a ≤ maxDate := by omega
  refine ⟨windowsFrom maxDate a, ?_, ?_, ?_, ?_, ?_, ?_⟩
  · rw [mondayPairsIteratorFactory]
    simp [ha, not_lt.mpr h]
  · rw [windowsFrom_cons haM]; simp
  · refine ⟨(a, a + 7), windowsFrom_head haM, ?_, by omega, by omega⟩
    simp only [ha]
    omega
  · exact windowsFrom_span maxDate (maxDate + 1 - a).toNat a le_rfl
  · exact windowsFrom_chain maxDate (maxDate + 1 - a).toNat a le_rfl
  · exact windowsFrom_last maxDate (maxDate + 1 - a).toNat a le_rfl haM

/-- Witness for C1 at minDate = 4 (a Thursday: weekday 3), maxDate = 17:
the generated windows are (1,8), (8,15), (15,22). -/
theorem mondayPairs_weekly_window_coverage_witness :
    (4 : Int) ≤ 17 ∧
    (∃ ws, mondayPairsIteratorFactory 4 17 = Except.ok ws ∧
      ws ≠ [] ∧
      (∃ first, ws.head? = some first ∧
        (first.1 - 1) % 7 = 0 ∧ first.1 ≤ 4 ∧ (4 : Int) - 7 < first.1) ∧
      (∀ p ∈ ws, p.2 = p.1 + 7) ∧
      List.Chain' (fun p q => p.2 = q.1) ws ∧
      (∃ last, ws.getLast? = some last ∧ last.1 ≤ 17 ∧ (17 : Int) < last.2)) :=
  ⟨by norm_num, mondayPairs_weekly_window_coverage 4 17 (by norm_num)⟩

/-- C9: for `maxDate < minDate` the window generator factory raises `ValueError`
(embedded as `Except.error`) and produces no windows; for date inputs with
`minDate ≤ maxDate` it does not fail. -/
theorem mondayPairs_range_check (minDate maxDate : Int) :
    (maxDate < minDate →
      mondayPairsIteratorFactory minDate maxDate =
        Except.error "minDate must be <= maxDate") ∧
    (minDate ≤ maxDate →
      ∃ ws, mondayPairsIteratorFactory minDate maxDate = Except.ok ws) := by
  constructor
  · intro hlt
    rw [mondayPairsIteratorFactory]
    simp [hlt]
  · intro hle
    refine ⟨windowsFrom maxDate (minDate - (minDate - 1) % 7), ?_⟩
    rw [mondayPairsIteratorFactory]
    simp [not_lt.mpr hle]

/-- Witness for C9: the reversed range (10, 3) fails with the invalid-range
error, and the valid range (3, 10) succeeds. -/
theorem mondayPairs_range_check_witness :
    ((3 : Int) < 10 ∧
      mondayPairsIteratorFactory 10 3 = Except.error "minDate must be <= maxDate") ∧
    ((3 : Int) ≤ 10 ∧
      ∃ ws, mondayPairsIteratorFactory 3 10 = Except.ok ws) :=
  ⟨⟨by norm_num, (mondayPairs_range_check 10 3).1 (by norm_num)⟩,
   ⟨by norm_num, (mondayPairs_range_check 3 10).2 (by norm_num)⟩⟩

/-! ### Exception classes, statements, events and database state

`psycopg2` exception classes relevant to schema.py's handlers:
`ProgrammingError` (carrying whether the underlying condition is an
"object already exists" collision or some other programming failure such
as a syntax error or a reference to a missing table), other subclasses
of `DatabaseError` (e.g. `OperationalError`, `IntegrityError`), and
non-database exceptions. -/

inductive PgErr
  | programming (alreadyExists : Bool)
  | otherDatabase
  | otherError
deriving DecidableEq

/-- `except pg.ProgrammingError` matches exactly the `programming` class,
regardless of whether the condition is an idempotency collision. -/
def PgErr.isProgramming : PgErr → Bool
  | .programming _ => true
  | _ => false

/-- `except pg.DatabaseError` matches `ProgrammingError` and every other
database error class. -/
def PgErr.isDatabase : PgErr → Bool
  | .programming _ => true
  | .otherDatabase => true
  | .otherError => false

/-- The statements schema.py passes to `databaseCursor.execute`, identified
by their kind and the object or partition they mention (the static SQL
bodies are configuration data, out of scope).  `rollbackToAndRelease` is
the single combined statement
`"rollback to X; release savepoint X;"` used by the partition-creation
and insert handlers, distinct from the bare `rollbackTo` used by
`DatabaseObject.create`. -/
inductive Stmt
  | savepoint (name : String)
  | releaseSavepoint (name : String)
  | rollbackTo (name : String)
  | rollbackToAndRelease (name : String)
  | createSql (objectName : String)
  | partitionCreationSql (partitionName : String)
  | insertSql (partitionName : String)
  | dropTable (objectName : String)
  | dropType (objectName : String)
deriving DecidableEq

/-- Observable events of a run.  `execute conn s` is a cursor execute on
connection `conn` (0 = the caller's connection, 1 = the alternate
connection the insert fallback obtains); `lockAcquire`/`lockRelease`
would be emitted by acquiring/releasing
`PartitionedTable.partitionCreationLock` (schema.py line 174). -/
inductive Ev
  | execute (conn : Nat) (s : Stmt)
  | commit (conn : Nat)
  | rollback (conn : Nat)
  | logDebug
  | logError
  | lockAcquire
  | lockRelease
  | registryCheck (name : String) (found : Bool)
  | registryMark (name : String)
deriving DecidableEq

/-- Module-level mutable state plus the observable trace: the events so
far, a counter of issued statements (used by the oracle to address
individual statements of a run), and the module-level
`partitionCreationHistory` set (schema.py line 60). -/
structure DbState where
  trace : List Ev
  counter : Nat
  registry : List String
deriving DecidableEq

def dbInit : DbState := ⟨[], 0, []⟩

/-- The environment's response to each executed statement: `none` means
the statement succeeds, `some e` means it raises an exception of class
`e`.  Responses are addressed by the statement counter, so a statement
retried later may get a different response. -/
def Oracle : Type := Nat → Stmt → Option PgErr

/-- `databaseCursor.execute(s)`: record the event, advance the counter,
and report the environment's verdict. -/
def execStmt (oracle : Oracle) (conn : Nat) (s : Stmt) (st : DbState) :
    DbState × Option PgErr :=
  ({ st with trace := st.trace ++ [Ev.execute conn s], counter := st.counter + 1 },
   oracle st.counter s)

def commitConn (conn : Nat) (st : DbState) : DbState :=
  { st with trace := st.trace ++ [Ev.commit conn] }

def rollbackConn (conn : Nat) (st : DbState) : DbState :=
  { st with trace := st.trace ++ [Ev.rollback conn] }

def logDebugEv (st : DbState) : DbState :=
  { st with trace := st.trace ++ [Ev.logDebug] }

def logErrorEv (st : DbState) : DbState :=
  { st with trace := st.trace ++ [Ev.logError] }

/-- `partitionWasCreated` (schema.py lines 62-64): a membership test on
the module-level `partitionCreationHistory` set, with no locking. -/
def partitionWasCreated (st : DbState) (partitionTableName : String) : DbState × Bool :=
  ({ st with trace :=
      st.trace ++ [Ev.registryCheck partitionTableName (st.registry.contains partitionTableName)] },
   st.registry.contains partitionTableName)

/-- `markPartitionCreated` (schema.py lines 66-69): a plain `set.add` on
`partitionCreationHistory`, with no locking. -/
def markPartitionCreated (st : DbState) (partitionTableName : String) : DbState :=
  { st with trace := st.trace ++ [Ev.registryMark partitionTableName],
            registry := st.registry.insert partitionTableName }

/-! ### The schema-object catalog

The leaf classes registered in `databaseDependenciesForSetup`
(schema.py lines 402-1512), in their textual registration order. -/

inductive TableClass
  | ReportsTable
  | PriorityJobsTable
  | ProcessorsTable
  | JobsTable
  | BugsTable
  | BugAssociationsTable
  | ServerStatusTable
  | ReleaseEnum
  | ProductDimsTable
  | BranchesView
  | UrlDimsTable
  | OsDimsTable
  | ExtensionsTable
  | FramesTable
  | TimeBeforeFailureTable
  | ProductVisibilityTable
  | TopCrashesByUrlTable
  | TopCrashByUrlSignatureTable
  | TopCrashUrlFactsReportsTable
  | TopCrashesBySignatureTable
  | PluginsTable
  | PluginsReportsTable
  | AlexaTopsitesTable
  | RawAduTable
  | BuildsTable
  | DailyCrashesTable
  | EmailCampaignsTable
  | EmailContactsTable
  | EmailCampaignsContactsTable
  | SignatureProductdimsTable
deriving DecidableEq, Fintype

/-- The `name` each class passes to the `DatabaseObject` constructor. -/
def TableClass.name : TableClass → String
  | .ReportsTable => "reports"
  | .PriorityJobsTable => "priorityjobs"
  | .ProcessorsTable => "processors"
  | .JobsTable => "jobs"
  | .BugsTable => "bugs"
  | .BugAssociationsTable => "bug_associations"
  | .ServerStatusTable => "server_status"
  | .ReleaseEnum => "release_enum"
  | .ProductDimsTable => "productdims"
  | .BranchesView => "branches"
  | .UrlDimsTable => "urldims"
  | .OsDimsTable => "osdims"
  | .ExtensionsTable => "extensions"
  | .FramesTable => "frames"
  | .TimeBeforeFailureTable => "time_before_failure"
  | .ProductVisibilityTable => "product_visibility"
  | .TopCrashesByUrlTable => "top_crashes_by_url"
  | .TopCrashByUrlSignatureTable => "top_crashes_by_url_signature"
  | .TopCrashUrlFactsReportsTable => "topcrashurlfactsreports"
  | .TopCrashesBySignatureTable => "top_crashes_by_signature"
  | .PluginsTable => "plugins"
  | .PluginsReportsTable => "plugins_reports"
  | .AlexaTopsitesTable => "alexa_topsites"
  | .RawAduTable => "raw_adu"
  | .BuildsTable => "builds"
  | .DailyCrashesTable => "daily_crashes"
  | .EmailCampaignsTable => "email_campaigns"
  | .EmailContactsTable => "email_contacts"
  | .EmailCampaignsContactsTable => "email_campaigns_contacts"
  | .SignatureProductdimsTable => "signature_productdims"

/-- `databaseDependenciesForSetup` (schema.py lines 402-1512). -/
def databaseDependenciesForSetup : TableClass → List TableClass
  | .JobsTable => [.ProcessorsTable]
  | .BugAssociationsTable => [.BugsTable]
  | .ProductDimsTable => [.ReleaseEnum]
  | .BranchesView => [.ProductDimsTable]
  | .TimeBeforeFailureTable => [.ProductDimsTable, .OsDimsTable]
  | .ProductVisibilityTable => [.ProductDimsTable]
  | .TopCrashesByUrlTable => [.ProductDimsTable, .OsDimsTable, .UrlDimsTable]
  | .TopCrashByUrlSignatureTable => [.TopCrashesByUrlTable]
  | .TopCrashUrlFactsReportsTable => [.TopCrashesByUrlTable]
  | .TopCrashesBySignatureTable => [.OsDimsTable, .ProductDimsTable]
  | .PluginsReportsTable => [.PluginsTable]
  | .EmailCampaignsContactsTable => [.EmailCampaignsTable, .EmailContactsTable]
  | .SignatureProductdimsTable => [.TopCrashesBySignatureTable, .ProductDimsTable]
  | _ => []

/-- `databaseDependenciesForPartition` (schema.py lines 786, 847, 1200);
classes without an entry have no partition prerequisites. -/
def databaseDependenciesForPartition : TableClass → List TableClass
  | .ExtensionsTable => [.ReportsTable]
  | .FramesTable => [.ReportsTable]
  | .PluginsReportsTable => [.ReportsTable]
  | _ => []

/-- All registered classes, in registration order (the iteration order
used when `getOrderedSetupList` is asked for all known tables). -/
def allTableClasses : List TableClass :=
  [.ReportsTable, .PriorityJobsTable, .ProcessorsTable, .JobsTable, .BugsTable,
   .BugAssociationsTable, .ServerStatusTable, .ReleaseEnum, .ProductDimsTable,
   .BranchesView, .UrlDimsTable, .OsDimsTable, .ExtensionsTable, .FramesTable,
   .TimeBeforeFailureTable, .ProductVisibilityTable, .TopCrashesByUrlTable,
   .TopCrashByUrlSignatureTable, .TopCrashUrlFactsReportsTable,
   .TopCrashesBySignatureTable, .PluginsTable, .PluginsReportsTable,
   .AlexaTopsitesTable, .RawAduTable, .BuildsTable, .DailyCrashesTable,
   .EmailCampaignsTable, .EmailContactsTable, .EmailCampaignsContactsTable,
   .SignatureProductdimsTable]

/-- The statement issued by each class's `drop` method: `Table.drop`
(schema.py line 151) issues `drop table if exists .. cascade`;
`ReleaseEnum.drop` (line 587) issues `drop type if exists .. cascade`;
`BranchesView` inherits the no-op `DatabaseObject.drop` (line 128). -/
def TableClass.dropStmt : TableClass → Option Stmt
  | .ReleaseEnum => some (Stmt.dropType "release_enum")
  | .BranchesView => none
  | c => some (Stmt.dropTable c.name)

/-- The per-window partition name: each partitioned class's
`partitionCreationParameters` renders `"<baseName>_<YYYYMMDD>"` from
the window start (e.g. `ReportsTable`, schema.py lines 353-363); the
calendar rendering of the ordinal is abstracted as its decimal digits. -/
def partitionNameOf (cls : TableClass) (windowStart : Int) : String :=
  cls.name ++ "_" ++ toString windowStart

/-! ### Dependency ordering

`socorro.lib.prioritize.dependencyOrder` is code of this repository that
is not under src/; it is modelled from the spec below. -/

/-- Modelled from the spec: helper for `dependencyOrder` — scan the
pending identifiers in order and pick the first whose dependencies have
all been emitted already (deterministic tie-breaking). -/
def pickReady (deps : TableClass → List TableClass) (done : List TableClass) :
    List TableClass → Option TableClass
  | [] => none
  | n :: rest =>
    if (deps n).all (fun d => done.contains d) then some n
    else pickReady deps done rest

/-- Modelled from the spec: the emission loop of `dependencyOrder` —
repeatedly emit a pending identifier all of whose dependencies are
already emitted; if none is ready the graph is cyclic and the result is
`none` (the `CyclicDependency` error). -/
def kahnAux (deps : TableClass → List TableClass) :
    Nat → List TableClass → List TableClass → Option (List TableClass)
  | _, [], _ => some []
  | 0, _ :: _, _ => none
  | fuel + 1, pending, done =>
    match pickReady deps done pending with
    | none => none
    | some n => (kahnAux deps fuel (pending.erase n) (n :: done)).map (fun l => n :: l)

/-- Modelled from the spec: collect the identifiers transitively
required by the requested subset (the subset itself included). -/
def closureAux (deps : TableClass → List TableClass) :
    Nat → List TableClass → List TableClass → List TableClass
  | 0, acc, _ => acc
  | _ + 1, acc, [] => acc
  | fuel + 1, acc, n :: frontier =>
    if acc.contains n then closureAux deps fuel acc frontier
    else closureAux deps fuel (acc ++ [n]) (deps n ++ frontier)

/-- Modelled from the spec: `socorro.lib.prioritize.dependencyOrder`
(not under src/) — a sequence containing every identifier transitively
required by the subset plus the subset itself, each identifier after all
identifiers it depends on; `none` on a cyclic graph. -/
def dependencyOrder (deps : TableClass → List TableClass)
    (subset : List TableClass) : Option (List TableClass) :=
  let pending := closureAux deps 1000 [] subset
  kahnAux deps pending.length pending []

/-- `getOrderedSetupList` (schema.py lines 41-48): if no tables are
given, all the known tables are visited. -/
def getOrderedSetupList (whichTables : List TableClass) : Option (List TableClass) :=
  dependencyOrder databaseDependenciesForSetup
    (if whichTables.isEmpty then allTableClasses else whichTables)

/-- `getOrderedPartitionList` (schema.py lines 50-57). -/
def getOrderedPartitionList (whichTables : List TableClass) : Option (List TableClass) :=
  if whichTables.isEmpty then some []
  else dependencyOrder databaseDependenciesForPartition whichTables

/-- Checks that every identifier in the list appears after all the
identifiers it depends on, accumulating the identifiers seen so far. -/
def depsBeforeBool (deps : TableClass → List TableClass) :
    List TableClass → List TableClass → Bool
  | _, [] => true
  | done, n :: rest =>
    (deps n).all (fun d => done.contains d) && depsBeforeBool deps (done ++ [n]) rest

/-! ### `DatabaseObject.create` (schema.py lines 106-119) -/

/-- One iteration of the `for dbObjectClass in orderedDbObjectList` loop
of `DatabaseObject.create`: issue `savepoint creating_<name>`, then try
`_createSelf` (the object's `creationSql`; `additionalCreationProcedures`
is a no-op for every class in the catalog) followed by
`release savepoint creating_<name>`; `except pg.ProgrammingError`:
issue `rollback to creating_<name>`, commit the connection and log at
debug level.  Exceptions of any other class propagate. -/
def createStep (oracle : Oracle) (cls : TableClass) (st : DbState) :
    DbState × Option PgErr :=
  let sp := "creating_" ++ cls.name
  let (st1, r1) := execStmt oracle 0 (Stmt.savepoint sp) st
  match r1 with
  | some e => (st1, some e)
  | none =>
    let (st2, r2) := execStmt oracle 0 (Stmt.createSql cls.name) st1
    let (st3, r3) :=
      match r2 with
      | none => execStmt oracle 0 (Stmt.releaseSavepoint sp) st2
      | some e => (st2, some e)
    match r3 with
    | none => (st3, none)
    | some e =>
      if e.isProgramming then
        let (st4, r4) := execStmt oracle 0 (Stmt.rollbackTo sp) st3
        match r4 with
        | some e2 => (st4, some e2)
        | none => (logDebugEv (commitConn 0 st4), none)
      else (st3, some e)

/-- The loop of `DatabaseObject.create` over the ordered setup list. -/
def createLoop (oracle : Oracle) : List TableClass → DbState → DbState × Option PgErr
  | [], st => (st, none)
  | c :: rest, st =>
    match createStep oracle c st with
    | (st1, none) => createLoop oracle rest st1
    | (st1, some e) => (st1, some e)

/-- `DatabaseObject.create` (schema.py lines 106-119): compute
`getOrderedSetupList([self.__class__])` and run the checkpointed
creation step for every class in that list (instantiating each
prerequisite object).  A cyclic catalog would make `dependencyOrder`
raise; that error propagates. -/
def DatabaseObject.create (oracle : Oracle) (cls : TableClass) (st : DbState) :
    DbState × Option PgErr :=
  match getOrderedSetupList [cls] with
  | none => (st, some PgErr.otherError)
  | some orderedDbObjectList => createLoop oracle orderedDbObjectList st

/-! ### `PartitionedTable` partition creation and insert routing
(schema.py lines 158-280) -/

/-- `PartitionedTable._createOwnPartition` (schema.py lines 189-218):
for each item, compute the partition name; skip it if
`partitionWasCreated`; otherwise issue
`savepoint createPartitions_<name>`, try `_createSelf` (the bound
partition-creation statement) followed by `markPartitionCreated` and
`release savepoint`; `except pg.ProgrammingError`: log at debug level
and issue the combined
`rollback to createPartitions_<name>; release savepoint ...;` statement.
After either outcome the connection is committed.  Exceptions of any
other class propagate (skipping the commit). -/
def PartitionedTable._createOwnPartition (oracle : Oracle) (conn : Nat)
    (cls : TableClass) : List (Int × Int) → DbState → DbState × Option PgErr
  | [], st => (st, none)
  | x :: rest, st =>
    let partitionName := partitionNameOf cls x.1
    let (stA, found) := partitionWasCreated st partitionName
    if found then PartitionedTable._createOwnPartition oracle conn cls rest stA
    else
      let sp := "createPartitions_" ++ partitionName
      let (st1, r1) := execStmt oracle conn (Stmt.savepoint sp) stA
      match r1 with
      | some e => (st1, some e)
      | none =>
        let (st2, r2) := execStmt oracle conn (Stmt.partitionCreationSql partitionName) st1
        let (st3, r3) :=
          match r2 with
          | none =>
            execStmt oracle conn (Stmt.releaseSavepoint sp) (markPartitionCreated st2 partitionName)
          | some e => (st2, some e)
        match r3 with
        | none =>
          PartitionedTable._createOwnPartition oracle conn cls rest (commitConn conn st3)
        | some e =>
          if e.isProgramming then
            let (st5, r5) := execStmt oracle conn (Stmt.rollbackToAndRelease sp) (logDebugEv st3)
            match r5 with
            | some e2 => (st5, some e2)
            | none => PartitionedTable._createOwnPartition oracle conn cls rest (commitConn conn st5)
          else (st3, some e)

/-- The loop of `createPartitions` over the ordered partition list:
each (possibly prerequisite) partitioned class creates its own
partitions for all the unique items. -/
def createPartitionsLoop (oracle : Oracle) (conn : Nat) (uniqueItems : List (Int × Int)) :
    List TableClass → DbState → DbState × Option PgErr
  | [], st => (st, none)
  | tc :: rest, st =>
    match PartitionedTable._createOwnPartition oracle conn tc uniqueItems st with
    | (st1, none) => createPartitionsLoop oracle conn uniqueItems rest st1
    | (st1, some e) => (st1, some e)

/-- `PartitionedTable.createPartitions` (schema.py lines 221-237):
materialize the iterator, compute
`getOrderedPartitionList([self.__class__])` and drive each class's
`_createOwnPartition` over the items, prerequisites first. -/
def PartitionedTable.createPartitions (oracle : Oracle) (conn : Nat) (cls : TableClass)
    (iterator : List (Int × Int)) (st : DbState) : DbState × Option PgErr :=
  let st0 := logDebugEv st
  match getOrderedPartitionList [cls] with
  | none => (st0, some PgErr.otherError)
  | some partitionTableClasses =>
    createPartitionsLoop oracle conn iterator partitionTableClasses st0

/-- The result of `PartitionedTable.insert`. -/
inductive InsertResult
  | ok
  | pgError (e : PgErr)
  | partitionControlParameterRequired
deriving DecidableEq

/-- The retry at the end of the `except` branch of
`PartitionedTable.insert`: log, then re-execute the insert statement on
the original connection; a failure is not caught. -/
def insertRetry (oracle : Oracle) (partitionName : String) (st : DbState) :
    DbState × InsertResult :=
  let (st1, r) := execStmt oracle 0 (Stmt.insertSql partitionName) (logDebugEv st)
  match r with
  | none => (st1, InsertResult.ok)
  | some e => (st1, InsertResult.pgError e)

/-- The `except pg.ProgrammingError` block of `PartitionedTable.insert`
(schema.py lines 269-280): log, issue the combined rollback-and-release,
commit, obtain the alternate connection (connection 1) and create the
partition(s) for the given window range there (`except pg.DatabaseError`:
log only), then retry the insert exactly once on the original
connection. -/
def insertFallback (oracle : Oracle) (cls : TableClass) (dateList : List (Int × Int))
    (partitionName : String) (st : DbState) : DbState × InsertResult :=
  let (st5, r5) :=
    execStmt oracle 0 (Stmt.rollbackToAndRelease partitionName) (logDebugEv st)
  match r5 with
  | some e2 => (st5, InsertResult.pgError e2)
  | none =>
    match PartitionedTable.createPartitions oracle 1 cls dateList (commitConn 0 st5) with
    | (st7, some ec) =>
      if ec.isDatabase then insertRetry oracle partitionName (logDebugEv st7)
      else (st7, InsertResult.pgError ec)
    | (st7, none) => insertRetry oracle partitionName st7

/-- `PartitionedTable.insert` (schema.py lines 255-280): require the
`date_processed` keyword (else raise `PartitionControlParameterRequired`
before touching the database); compute the owning window from the
single-point range and the partition name from it; try
savepoint/insert/release; `except pg.ProgrammingError`: run
`insertFallback`.  Exceptions of any other class propagate without any
recovery. -/
def PartitionedTable.insert (oracle : Oracle) (cls : TableClass)
    (kwargs : Option Int) (st : DbState) : DbState × InsertResult :=
  match kwargs with
  | none => (st, InsertResult.partitionControlParameterRequired)
  | some uniqueIdentifier =>
    match mondayPairsIteratorFactory uniqueIdentifier uniqueIdentifier with
    | Except.error _ => (st, InsertResult.pgError PgErr.otherError)
    | Except.ok dateList =>
      match dateList with
      | [] => (st, InsertResult.pgError PgErr.otherError)
      | dateRangeTuple :: _ =>
        let partitionName := partitionNameOf cls dateRangeTuple.1
        let (st1, r1) := execStmt oracle 0 (Stmt.savepoint partitionName) st
        let (st2, r2) :=
          match r1 with
          | none => execStmt oracle 0 (Stmt.insertSql partitionName) st1
          | some e => (st1, some e)
        let (st3, r3) :=
          match r2 with
          | none => execStmt oracle 0 (Stmt.releaseSavepoint partitionName) st2
          | some e => (st2, some e)
        match r3 with
        | none => (st3, InsertResult.ok)
        | some e =>
          if e.isProgramming then insertFallback oracle cls dateList partitionName st3
          else (st3, InsertResult.pgError e)

/-! ### `teardownDatabase` (schema.py lines 1537-1548) -/

/-- The `for databaseObjectClass in getOrderedSetupList()` loop of
`teardownDatabase`: drop each object; the first exception aborts the
loop. -/
def teardownLoop (oracle : Oracle) : List TableClass → DbState → DbState × Option PgErr
  | [], st => (st, none)
  | c :: rest, st =>
    match c.dropStmt with
    | none => teardownLoop oracle rest st
    | some s =>
      let (st1, r) := execStmt oracle 0 s st
      match r with
      | none => teardownLoop oracle rest st1
      | some e => (st1, some e)

/-- `teardownDatabase` (schema.py lines 1537-1548): drop every known
object; on success commit and reset `partitionCreationHistory`; a bare
`except` around the whole loop rolls the connection back and reports
the exception without re-raising (`reportExceptionAndContinue`,
modelled from the spec — `socorro.lib.util` is not under src/ — as a
log event that swallows the error). -/
def teardownDatabase (oracle : Oracle) (st : DbState) : DbState :=
  match getOrderedSetupList [] with
  | none => logErrorEv (rollbackConn 0 st)
  | some order =>
    match teardownLoop oracle order st with
    | (st1, none) => { commitConn 0 st1 with registry := [] }
    | (st1, some _) => logErrorEv (rollbackConn 0 st1)

/-! ### Helper lemmas -/

/-- A single-point range yields exactly one window: the Monday-aligned
week holding the point. -/
theorem mondayPairs_point (d : Int) :
    mondayPairsIteratorFactory d d =
      Except.ok [(d - (d - 1) % 7, d - (d - 1) % 7 + 7)] := by
  have h1 : 0 ≤ (d - 1) % 7 := Int.emod_nonneg _ (by norm_num)
  have h2 : (d - 1) % 7 < 7 := Int.emod_lt_of_pos _ (by norm_num)
  rw [mondayPairsIteratorFactory, if_neg (by omega),
    windowsFrom_single (by omega) (by omega)]

/-! ### C5 -/

/-- C5: a call to `PartitionedTable.insert` whose keyword arguments omit
the partitioning value (`date_processed`) fails with
`PartitionControlParameterRequired` before executing any database
statement: the state (trace and registry) is returned unchanged. -/
theorem insert_requires_partition_key (oracle : Oracle) (cls : TableClass) (st : DbState) :
    PartitionedTable.insert oracle cls none st =
      (st, InsertResult.partitionControlParameterRequired) := rfl

/-! ### C2 -/

/-- Environment in which every creation statement fails with a
`ProgrammingError` whose condition is not "object already exists"
(e.g. a syntax error or a reference to a missing table). -/
def oracleSyntaxError : Oracle := fun _ s =>
  match s with
  | Stmt.createSql _ => some (PgErr.programming false)
  | Stmt.partitionCreationSql _ => some (PgErr.programming false)
  | _ => none

/-- C2 counterexample: a creation failure of the `ProgrammingError`
class whose condition is NOT "object already exists"
(`alreadyExists = false`, e.g. a syntax error) is swallowed by both
`DatabaseObject.create`'s per-object step and
`PartitionedTable._createOwnPartition` and treated as success — it is
not propagated as fatal. -/
theorem create_swallows_foreign_programming_errors :
    oracleSyntaxError 1 (Stmt.createSql "reports") = some (PgErr.programming false) ∧
    (createStep oracleSyntaxError TableClass.ReportsTable dbInit).2 = none ∧
    oracleSyntaxError 1 (Stmt.partitionCreationSql "reports_1") =
      some (PgErr.programming false) ∧
    (PartitionedTable._createOwnPartition oracleSyntaxError 0 TableClass.ReportsTable
      [(1, 8)] dbInit).2 = none := by decide

/-- C2 (amended): the idempotent-create protocol discriminates failures
by exception class only.  In both `DatabaseObject.create`'s per-object
step and `PartitionedTable._createOwnPartition`, a creation-statement
failure of any class other than `ProgrammingError` propagates to the
caller, while ANY `ProgrammingError` — whether or not the condition is
"object already exists" — is recovered locally and treated as
success. -/
theorem create_propagates_only_non_programming_failures :
    (∀ (oracle : Oracle) (cls : TableClass) (st : DbState) (e : PgErr),
      oracle st.counter (Stmt.savepoint ("creating_" ++ cls.name)) = none →
      oracle (st.counter + 1) (Stmt.createSql cls.name) = some e →
      e.isProgramming = false →
      (createStep oracle cls st).2 = some e) ∧
    (∀ (oracle : Oracle) (cls : TableClass) (st : DbState) (b : Bool),
      oracle st.counter (Stmt.savepoint ("creating_" ++ cls.name)) = none →
      oracle (st.counter + 1) (Stmt.createSql cls.name) = some (PgErr.programming b) →
      oracle (st.counter + 2) (Stmt.rollbackTo ("creating_" ++ cls.name)) = none →
      (createStep oracle cls st).2 = none) ∧
    (∀ (oracle : Oracle) (conn : Nat) (cls : TableClass) (w : Int × Int) (st : DbState)
        (e : PgErr),
      st.registry.contains (partitionNameOf cls w.1) = false →
      oracle st.counter
        (Stmt.savepoint ("createPartitions_" ++ partitionNameOf cls w.1)) = none →
      oracle (st.counter + 1)
        (Stmt.partitionCreationSql (partitionNameOf cls w.1)) = some e →
      e.isProgramming = false →
      (PartitionedTable._createOwnPartition oracle conn cls [w] st).2 = some e) ∧
    (∀ (oracle : Oracle) (conn : Nat) (cls : TableClass) (w : Int × Int) (st : DbState)
        (b : Bool),
      st.registry.contains (partitionNameOf cls w.1) = false →
      oracle st.counter
        (Stmt.savepoint ("createPartitions_" ++ partitionNameOf cls w.1)) = none →
      oracle (st.counter + 1)
        (Stmt.partitionCreationSql (partitionNameOf cls w.1)) = some (PgErr.programming b) →
      oracle (st.counter + 2)
        (Stmt.rollbackToAndRelease ("createPartitions_" ++ partitionNameOf cls w.1)) = none →
      (PartitionedTable._createOwnPartition oracle conn cls [w] st).2 = none) := by
  refine ⟨?_, ?_, ?_, ?_⟩
  · intro oracle cls st e h1 h2 he
    cases e with
    | programming b => simp [PgErr.isProgramming] at he
    | otherDatabase =>
      simp [createStep, execStmt, h1, h2, PgErr.isProgramming]
    | otherError =>
      simp [createStep, execStmt, h1, h2, PgErr.isProgramming]
  · intro oracle cls st b h1 h2 h3
    simp [createStep, execStmt, h1, h2, h3, PgErr.isProgramming]
  · intro oracle conn cls w st e h0 h1 h2 he
    have h0' : ¬ partitionNameOf cls w.1 ∈ st.registry := by simpa using h0
    cases e with
    | programming b => simp [PgErr.isProgramming] at he
    | otherDatabase =>
      simp [PartitionedTable._createOwnPartition, partitionWasCreated, execStmt, logDebugEv,
        commitConn, h0', h1, h2, PgErr.isProgramming]
    | otherError =>
      simp [PartitionedTable._createOwnPartition, partitionWasCreated, execStmt, logDebugEv,
        commitConn, h0', h1, h2, PgErr.isProgramming]
  · intro oracle conn cls w st b h0 h1 h2 h3
    have h0' : ¬ partitionNameOf cls w.1 ∈ st.registry := by simpa using h0
    have h3' : oracle (st.counter + 1 + 1)
        (Stmt.rollbackToAndRelease ("createPartitions_" ++ partitionNameOf cls w.1)) = none := by
      rw [show st.counter + 1 + 1 = st.counter + 2 by omega]
      exact h3
    simp [PartitionedTable._createOwnPartition, partitionWasCreated, execStmt, logDebugEv,
      commitConn, h0', h1, h2, h3', PgErr.isProgramming]

/-- Environment in which every creation statement fails with a database
error that is not a `ProgrammingError` (e.g. an `IntegrityError`). -/
def oracleIntegrityError : Oracle := fun _ s =>
  match s with
  | Stmt.createSql _ => some PgErr.otherDatabase
  | Stmt.partitionCreationSql _ => some PgErr.otherDatabase
  | _ => none

/-- Witness for the amended C2: a non-`ProgrammingError` creation
failure propagates out of the per-object creation step. -/
theorem create_propagates_only_non_programming_failures_witness :
    (createStep oracleIntegrityError TableClass.ReportsTable dbInit).2 =
      some PgErr.otherDatabase :=
  create_propagates_only_non_programming_failures.1 oracleIntegrityError
    TableClass.ReportsTable dbInit PgErr.otherDatabase rfl rfl rfl

/-! ### C6 -/

/-- An event that explicitly releases a checkpoint (either a bare
`release savepoint` or the combined rollback-and-release statement). -/
def releasesCheckpoint : Ev → Bool
  | Ev.execute _ (Stmt.releaseSavepoint _) => true
  | Ev.execute _ (Stmt.rollbackToAndRelease _) => true
  | _ => false

/-- Environment in which every creation statement fails with the
"object already exists" `ProgrammingError`. -/
def oracleAlreadyExists : Oracle := fun _ s =>
  match s with
  | Stmt.createSql _ => some (PgErr.programming true)
  | Stmt.partitionCreationSql _ => some (PgErr.programming true)
  | _ => none

/-- C6 counterexample: on the "definition already exists" branch of
`DatabaseObject.create` the executed sequence is savepoint, creation
statement, rollback-to-checkpoint, commit, debug log — no statement on
this exit path releases the checkpoint, contradicting the claimed
rollback / release / commit sequence. -/
theorem create_error_branch_has_no_release :
    (createStep oracleAlreadyExists TableClass.ReportsTable dbInit).1.trace =
      [Ev.execute 0 (Stmt.savepoint "creating_reports"),
       Ev.execute 0 (Stmt.createSql "reports"),
       Ev.execute 0 (Stmt.rollbackTo "creating_reports"),
       Ev.commit 0, Ev.logDebug] ∧
    ((createStep oracleAlreadyExists TableClass.ReportsTable dbInit).1.trace.all
      (fun ev => !(releasesCheckpoint ev))) = true := by decide

/-- C6 (amended): on the "definition already exists" failure branch of
`DatabaseObject.create`, the sequence of operations is: roll back to the
named checkpoint, then commit the current transaction state (with a
debug log); no explicit release of the checkpoint is issued on this
path — the commit ends the transaction, implicitly discarding the
checkpoint. -/
theorem create_error_branch_rollback_then_commit (oracle : Oracle) (cls : TableClass)
    (st : DbState) (b : Bool)
    (h1 : oracle st.counter (Stmt.savepoint ("creating_" ++ cls.name)) = none)
    (h2 : oracle (st.counter + 1) (Stmt.createSql cls.name) = some (PgErr.programming b))
    (h3 : oracle (st.counter + 2) (Stmt.rollbackTo ("creating_" ++ cls.name)) = none) :
    createStep oracle cls st =
      ({ st with
          trace := st.trace ++
            [Ev.execute 0 (Stmt.savepoint ("creating_" ++ cls.name)),
             Ev.execute 0 (Stmt.createSql cls.name),
             Ev.execute 0 (Stmt.rollbackTo ("creating_" ++ cls.name)),
             Ev.commit 0, Ev.logDebug],
          counter := st.counter + 3 }, none) ∧
    (List.all
      [Ev.execute 0 (Stmt.savepoint ("creating_" ++ cls.name)),
       Ev.execute 0 (Stmt.createSql cls.name),
       Ev.execute 0 (Stmt.rollbackTo ("creating_" ++ cls.name)),
       Ev.commit 0, Ev.logDebug]
      (fun ev => !(releasesCheckpoint ev))) = true := by
  have h3' : oracle (st.counter + 1 + 1) (Stmt.rollbackTo ("creating_" ++ cls.name)) = none := by
    rw [show st.counter + 1 + 1 = st.counter + 2 by omega]
    exact h3
  constructor
  · simp only [createStep, execStmt, logDebugEv, commitConn, h1, h2, h3', PgErr.isProgramming]
    simp [DbState.mk.injEq, List.append_assoc]
  · simp [releasesCheckpoint]

/-- Witness for the amended C6 at a concrete run (`JobsTable`, whose
creation statement collides). -/
theorem create_error_branch_rollback_then_commit_witness :
    createStep oracleAlreadyExists TableClass.JobsTable dbInit =
      ({ dbInit with
          trace := dbInit.trace ++
            [Ev.execute 0 (Stmt.savepoint ("creating_" ++ TableClass.JobsTable.name)),
             Ev.execute 0 (Stmt.createSql TableClass.JobsTable.name),
             Ev.execute 0 (Stmt.rollbackTo ("creating_" ++ TableClass.JobsTable.name)),
             Ev.commit 0, Ev.logDebug],
          counter := dbInit.counter + 3 }, none) ∧
    (List.all
      [Ev.execute 0 (Stmt.savepoint ("creating_" ++ TableClass.JobsTable.name)),
       Ev.execute 0 (Stmt.createSql TableClass.JobsTable.name),
       Ev.execute 0 (Stmt.rollbackTo ("creating_" ++ TableClass.JobsTable.name)),
       Ev.commit 0, Ev.logDebug]
      (fun ev => !(releasesCheckpoint ev))) = true :=
  create_error_branch_rollback_then_commit oracleAlreadyExists TableClass.JobsTable dbInit
    true rfl rfl rfl

/-! ### C4 -/

/-- Environment in which every partition-creation statement reports the
partition as pre-existing. -/
def oraclePartitionExists : Oracle := fun _ s =>
  match s with
  | Stmt.partitionCreationSql _ => some (PgErr.programming true)
  | _ => none

/-- C4 counterexample: in `_createOwnPartition`, when the creation
statement finds the partition pre-existing ("already exists"
`ProgrammingError`), the run completes as success but the key is NOT
marked in the registry — contradicting "marked regardless of whether
the statement found it newly created or pre-existing". -/
theorem createOwnPartition_does_not_mark_preexisting :
    (PartitionedTable._createOwnPartition oraclePartitionExists 0 TableClass.ReportsTable
      [(1, 8)] dbInit).2 = none ∧
    (PartitionedTable._createOwnPartition oraclePartitionExists 0 TableClass.ReportsTable
      [(1, 8)] dbInit).1.registry = [] ∧
    ((PartitionedTable._createOwnPartition oraclePartitionExists 0 TableClass.ReportsTable
      [(1, 8)] dbInit).1.trace.contains
        (Ev.execute 0 (Stmt.partitionCreationSql "reports_1"))) = true := by decide

/-- C4 (amended): in `_createOwnPartition`, a key that is not already
marked is marked as created ONLY when its creation statement succeeds;
on the "already exists" failure path the key is left unmarked (so a
pre-existing partition will be re-attempted by later calls). -/
theorem createOwnPartition_marks_only_on_success :
    (∀ (oracle : Oracle) (conn : Nat) (cls : TableClass) (w : Int × Int) (st : DbState),
      st.registry.contains (partitionNameOf cls w.1) = false →
      oracle st.counter
        (Stmt.savepoint ("createPartitions_" ++ partitionNameOf cls w.1)) = none →
      oracle (st.counter + 1)
        (Stmt.partitionCreationSql (partitionNameOf cls w.1)) = none →
      oracle (st.counter + 2)
        (Stmt.releaseSavepoint ("createPartitions_" ++ partitionNameOf cls w.1)) = none →
      (PartitionedTable._createOwnPartition oracle conn cls [w] st).1.registry =
        st.registry.insert (partitionNameOf cls w.1) ∧
      (PartitionedTable._createOwnPartition oracle conn cls [w] st).2 = none) ∧
    (∀ (oracle : Oracle) (conn : Nat) (cls : TableClass) (w : Int × Int) (st : DbState)
        (b : Bool),
      st.registry.contains (partitionNameOf cls w.1) = false →
      oracle st.counter
        (Stmt.savepoint ("createPartitions_" ++ partitionNameOf cls w.1)) = none →
      oracle (st.counter + 1)
        (Stmt.partitionCreationSql (partitionNameOf cls w.1)) = some (PgErr.programming b) →
      oracle (st.counter + 2)
        (Stmt.rollbackToAndRelease ("createPartitions_" ++ partitionNameOf cls w.1)) = none →
      (PartitionedTable._createOwnPartition oracle conn cls [w] st).1.registry =
        st.registry ∧
      (PartitionedTable._createOwnPartition oracle conn cls [w] st).2 = none) := by
  constructor
  · intro oracle conn cls w st h0 h1 h2 h3
    have h0' : ¬ partitionNameOf cls w.1 ∈ st.registry := by simpa using h0
    have h3' : oracle (st.counter + 1 + 1)
        (Stmt.releaseSavepoint ("createPartitions_" ++ partitionNameOf cls w.1)) = none := by
      rw [show st.counter + 1 + 1 = st.counter + 2 by omega]
      exact h3
    constructor <;>
      simp [PartitionedTable._createOwnPartition, partitionWasCreated, markPartitionCreated,
        execStmt, logDebugEv, commitConn, h0', h1, h2, h3']
  · intro oracle conn cls w st b h0 h1 h2 h3
    have h0' : ¬ partitionNameOf cls w.1 ∈ st.registry := by simpa using h0
    have h3' : oracle (st.counter + 1 + 1)
        (Stmt.rollbackToAndRelease ("createPartitions_" ++ partitionNameOf cls w.1)) = none := by
      rw [show st.counter + 1 + 1 = st.counter + 2 by omega]
      exact h3
    constructor <;>
      simp [PartitionedTable._createOwnPartition, partitionWasCreated, markPartitionCreated,
        execStmt, logDebugEv, commitConn, h0', h1, h2, h3', PgErr.isProgramming]

/-- Environment in which every statement succeeds. -/
def oracleAllNone : Oracle := fun _ _ => none

/-- Witness for the amended C4: on a successful creation the key is
marked; the concrete pre-existing case is the counterexample theorem. -/
theorem createOwnPartition_marks_only_on_success_witness :
    (PartitionedTable._createOwnPartition oracleAllNone 0 TableClass.FramesTable
      [(8, 15)] dbInit).1.registry = List.insert (partitionNameOf TableClass.FramesTable 8) [] ∧
    (PartitionedTable._createOwnPartition oracleAllNone 0 TableClass.FramesTable
      [(8, 15)] dbInit).2 = none :=
  createOwnPartition_marks_only_on_success.1 oracleAllNone 0 TableClass.FramesTable
    (8, 15) dbInit rfl rfl rfl rfl

/-! ### C3 -/

/-- Environment in which every insert statement fails with a database
error that is not a `ProgrammingError` (e.g. an `IntegrityError` such
as a constraint violation). -/
def oracleFirstInsertIntegrity : Oracle := fun _ s =>
  match s with
  | Stmt.insertSql _ => some PgErr.otherDatabase
  | _ => none

/-- C3 counterexample: a first insert attempt that fails with a
non-`ProgrammingError` exception propagates immediately — no
partition-creation attempt and no retry happen at all, contradicting
"for every row whose first insert attempt fails, exactly one
partition-creation attempt ... then retries ... exactly once". -/
theorem insert_non_programming_first_failure_skips_recovery :
    PartitionedTable.insert oracleFirstInsertIntegrity TableClass.ReportsTable (some 3) dbInit =
      ({ trace := [Ev.execute 0 (Stmt.savepoint "reports_1"),
                   Ev.execute 0 (Stmt.insertSql "reports_1")],
         counter := 2, registry := [] },
       InsertResult.pgError PgErr.otherDatabase) := by
  have hm : mondayPairsIteratorFactory 3 3 = Except.ok [(1, 8)] := by
    rw [mondayPairs_point]; norm_num
  simp only [PartitionedTable.insert, hm]
  decide

/-- C3 (amended): for every row whose first insert attempt fails with a
`ProgrammingError`, `PartitionedTable.insert` rolls back and commits,
then performs exactly one partition-creation call, for exactly the
single window computed from the partitioning value (transitively
creating prerequisite partitions), on the alternate connection; a
database-class failure of that creation attempt is only logged; then it
retries the original insert exactly once on the original connection
(`insertRetry`), whose failure propagates to the caller with no further
retry or creation attempt. -/
theorem insert_retries_once_after_programming_failure
    (oracle : Oracle) (cls : TableClass) (uid : Int) (st : DbState) (b : Bool)
    (h1 : oracle st.counter
      (Stmt.savepoint (partitionNameOf cls (uid - (uid - 1) % 7))) = none)
    (h2 : oracle (st.counter + 1)
      (Stmt.insertSql (partitionNameOf cls (uid - (uid - 1) % 7))) =
        some (PgErr.programming b))
    (h3 : oracle (st.counter + 2)
      (Stmt.rollbackToAndRelease (partitionNameOf cls (uid - (uid - 1) % 7))) = none) :
    (PartitionedTable.insert oracle cls (some uid) st =
      match PartitionedTable.createPartitions oracle 1 cls
          [(uid - (uid - 1) % 7, uid - (uid - 1) % 7 + 7)]
          { st with
              trace := st.trace ++
                [Ev.execute 0 (Stmt.savepoint (partitionNameOf cls (uid - (uid - 1) % 7))),
                 Ev.execute 0 (Stmt.insertSql (partitionNameOf cls (uid - (uid - 1) % 7))),
                 Ev.logDebug,
                 Ev.execute 0
                   (Stmt.rollbackToAndRelease (partitionNameOf cls (uid - (uid - 1) % 7))),
                 Ev.commit 0],
              counter := st.counter + 3 } with
      | (st7, some ec) =>
        if ec.isDatabase then
          insertRetry oracle (partitionNameOf cls (uid - (uid - 1) % 7)) (logDebugEv st7)
        else (st7, InsertResult.pgError ec)
      | (st7, none) => insertRetry oracle (partitionNameOf cls (uid - (uid - 1) % 7)) st7) ∧
    (∀ (stR : DbState) (e2 : PgErr),
      oracle (logDebugEv stR).counter
        (Stmt.insertSql (partitionNameOf cls (uid - (uid - 1) % 7))) = some e2 →
      (insertRetry oracle (partitionNameOf cls (uid - (uid - 1) % 7)) stR).2 =
        InsertResult.pgError e2) := by
  constructor
  · have hm := mondayPairs_point uid
    have h3' : oracle (st.counter + 1 + 1)
        (Stmt.rollbackToAndRelease (partitionNameOf cls (uid - (uid - 1) % 7))) = none := by
      rw [show st.counter + 1 + 1 = st.counter + 2 by omega]
      exact h3
    simp only [PartitionedTable.insert, insertFallback, hm, execStmt, logDebugEv, commitConn,
      h1, h2, h3', PgErr.isProgramming]
    rw [show st.counter + 1 + 1 + 1 = st.counter + 3 from by omega]
    simp only [if_true, List.append_assoc, List.singleton_append, List.cons_append,
      List.nil_append]
  · intro stR e2 hR
    simp [insertRetry, execStmt, hR]

/-- Environment for the amended-C3 witness: the first insert statement
(the second statement of the run) collides with the missing partition;
everything else succeeds. -/
def oracleRetryDemo : Oracle := fun n s =>
  match n, s with
  | 1, Stmt.insertSql _ => some (PgErr.programming false)
  | _, _ => none

/-- Witness for the amended C3: the run at `uid = 3` from the initial
state reduces to exactly one partition-creation call for the single
window `(1, 8)` followed by the single retry. -/
theorem insert_retries_once_after_programming_failure_witness :
    (PartitionedTable.insert oracleRetryDemo TableClass.ReportsTable (some 3) dbInit =
      match PartitionedTable.createPartitions oracleRetryDemo 1 TableClass.ReportsTable
          [((3 : Int) - (3 - 1) % 7, (3 : Int) - (3 - 1) % 7 + 7)]
          { dbInit with
              trace := dbInit.trace ++
                [Ev.execute 0
                   (Stmt.savepoint (partitionNameOf TableClass.ReportsTable (3 - (3 - 1) % 7))),
                 Ev.execute 0
                   (Stmt.insertSql (partitionNameOf TableClass.ReportsTable (3 - (3 - 1) % 7))),
                 Ev.logDebug,
                 Ev.execute 0
                   (Stmt.rollbackToAndRelease
                     (partitionNameOf TableClass.ReportsTable (3 - (3 - 1) % 7))),
                 Ev.commit 0],
              counter := dbInit.counter + 3 } with
      | (st7, some ec) =>
        if ec.isDatabase then
          insertRetry oracleRetryDemo
            (partitionNameOf TableClass.ReportsTable (3 - (3 - 1) % 7)) (logDebugEv st7)
        else (st7, InsertResult.pgError ec)
      | (st7, none) =>
        insertRetry oracleRetryDemo
          (partitionNameOf TableClass.ReportsTable (3 - (3 - 1) % 7)) st7) ∧
    (∀ (stR : DbState) (e2 : PgErr),
      oracleRetryDemo (logDebugEv stR).counter
        (Stmt.insertSql (partitionNameOf TableClass.ReportsTable (3 - (3 - 1) % 7))) = some e2 →
      (insertRetry oracleRetryDemo
        (partitionNameOf TableClass.ReportsTable (3 - (3 - 1) % 7)) stR).2 =
          InsertResult.pgError e2) :=
  insert_retries_once_after_programming_failure oracleRetryDemo TableClass.ReportsTable 3
    dbInit false rfl rfl rfl

/-! ### C7 -/

theorem teardownLoop_allOk (oracle : Oracle) (h : ∀ n s, oracle n s = none) :
    ∀ (order : List TableClass) (st : DbState),
      teardownLoop oracle order st =
        ({ st with
            trace := st.trace ++ (order.filterMap TableClass.dropStmt).map (Ev.execute 0),
            counter := st.counter + (order.filterMap TableClass.dropStmt).length }, none) := by
  intro order
  induction order with
  | nil => intro st; simp [teardownLoop]
  | cons c rest ih =>
    intro st
    cases hd : c.dropStmt with
    | none => simp [teardownLoop, hd, ih]
    | some s => simp [teardownLoop, hd, execStmt, h, ih, List.append_assoc]; omega

theorem teardownLoop_registry (oracle : Oracle) :
    ∀ (order : List TableClass) (st : DbState),
      (teardownLoop oracle order st).1.registry = st.registry := by
  intro order
  induction order with
  | nil => intro st; simp [teardownLoop]
  | cons c rest ih =>
    intro st
    cases hd : c.dropStmt with
    | none => simp [teardownLoop, hd, ih]
    | some s =>
      simp only [teardownLoop, hd, execStmt]
      cases oracle st.counter s with
      | none => simp [ih]
      | some e => simp

/-- C7 (amended): `teardownDatabase` attempts the cascading drops in
setup order inside one protected block: when every drop succeeds, every
known object's drop statement is executed and the partition cache is
cleared; but on the FIRST error the remaining drops are abandoned, the
transaction is rolled back, the error is logged (and swallowed), and
the partition cache is NOT cleared. -/
theorem teardown_aborts_on_first_error :
    (∀ (oracle : Oracle) (st : DbState), (∀ n s, oracle n s = none) →
      teardownDatabase oracle st =
        { st with
            trace := st.trace ++
              (allTableClasses.filterMap TableClass.dropStmt).map (Ev.execute 0) ++
              [Ev.commit 0],
            counter := st.counter + (allTableClasses.filterMap TableClass.dropStmt).length,
            registry := [] }) ∧
    (∀ (oracle : Oracle) (st st1 : DbState) (e : PgErr) (order : List TableClass),
      getOrderedSetupList [] = some order →
      teardownLoop oracle order st = (st1, some e) →
      teardownDatabase oracle st = logErrorEv (rollbackConn 0 st1) ∧
        st1.registry = st.registry) := by
  have hord : getOrderedSetupList [] = some allTableClasses := by decide
  constructor
  · intro oracle st h
    simp [teardownDatabase, hord, teardownLoop_allOk oracle h, commitConn, List.append_assoc]
  · intro oracle st st1 e order ho hl
    have hoa : allTableClasses = order := by
      rw [hord] at ho
      exact Option.some.inj ho
    subst hoa
    refine ⟨?_, ?_⟩
    · simp [teardownDatabase, hord, hl]
    · have hreg := teardownLoop_registry oracle allTableClasses st
      rw [hl] at hreg
      exact hreg

/-- A state with a non-empty partition cache, used to observe whether
teardown clears it. -/
def teardownStartState : DbState := { trace := [], counter := 0, registry := ["reports_1"] }

/-- Witness for the amended C7: the all-success run drops everything
and clears a non-empty cache. -/
theorem teardown_aborts_on_first_error_witness :
    teardownDatabase oracleAllNone teardownStartState =
      { teardownStartState with
          trace := teardownStartState.trace ++
            (allTableClasses.filterMap TableClass.dropStmt).map (Ev.execute 0) ++
            [Ev.commit 0],
          counter := teardownStartState.counter +
            (allTableClasses.filterMap TableClass.dropStmt).length,
          registry := [] } :=
  teardown_aborts_on_first_error.1 oracleAllNone teardownStartState (fun _ _ => rfl)

/-- Environment in which the second executed statement (the second
drop) fails. -/
def oracleSecondDropFails : Oracle := fun n _ =>
  if n == 1 then some PgErr.otherDatabase else none

/-- C7 counterexample: when the second drop fails, the remaining known
objects are never dropped (the loop is inside a single protected
block), and the partition cache is left uncleared — contradicting "an
error while dropping one object does not abort the drops of the
remaining objects, and the partition cache is cleared". -/
theorem teardown_abandons_remaining_drops :
    (teardownDatabase oracleSecondDropFails
      { trace := [], counter := 0, registry := ["reports_1"] }).trace =
      [Ev.execute 0 (Stmt.dropTable "reports"),
       Ev.execute 0 (Stmt.dropTable "priorityjobs"),
       Ev.rollback 0, Ev.logError] ∧
    ((teardownDatabase oracleSecondDropFails
      { trace := [], counter := 0, registry := ["reports_1"] }).trace.contains
        (Ev.execute 0 (Stmt.dropTable "processors"))) = false ∧
    (teardownDatabase oracleSecondDropFails
      { trace := [], counter := 0, registry := ["reports_1"] }).registry = ["reports_1"] := by
  decide

/-! ### C8 -/

/-- Lock acquisition/release events (of
`PartitionedTable.partitionCreationLock`). -/
def isLockEvent : Ev → Bool
  | Ev.lockAcquire => true
  | Ev.lockRelease => true
  | _ => false

/-- A trace that contains no lock acquisition or release. -/
def noLockEvents (t : List Ev) : Bool := t.all fun ev => !(isLockEvent ev)

theorem noLockEvents_append (a b : List Ev) :
    noLockEvents (a ++ b) = (noLockEvents a && noLockEvents b) := by
  simp [noLockEvents]

theorem noLockEvents_cons (ev : Ev) (t : List Ev) :
    noLockEvents (ev :: t) = (!(isLockEvent ev) && noLockEvents t) := by
  simp [noLockEvents]

theorem noLockEvents_nil : noLockEvents [] = true := rfl

theorem createStep_noLock (oracle : Oracle) (cls : TableClass) (st : DbState)
    (h : noLockEvents st.trace = true) :
    noLockEvents (createStep oracle cls st).1.trace = true := by
  simp only [createStep, execStmt, logDebugEv, commitConn]
  repeat' split
  all_goals simp [noLockEvents_append, noLockEvents_cons, noLockEvents_nil, isLockEvent, h]

theorem createLoop_noLock (oracle : Oracle) :
    ∀ (order : List TableClass) (st : DbState), noLockEvents st.trace = true →
      noLockEvents (createLoop oracle order st).1.trace = true := by
  intro order
  induction order with
  | nil => intro st h; simpa [createLoop] using h
  | cons c rest ih =>
    intro st h
    simp only [createLoop]
    rcases hcs : createStep oracle c st with ⟨st1, rc⟩
    have h1 : noLockEvents st1.trace = true := by
      have hx := createStep_noLock oracle c st h
      rw [hcs] at hx
      exact hx
    cases rc with
    | none => simpa using ih st1 h1
    | some e => simpa using h1

theorem createOwnPartition_noLock (oracle : Oracle) (conn : Nat) (cls : TableClass) :
    ∀ (items : List (Int × Int)) (st : DbState), noLockEvents st.trace = true →
      noLockEvents
        (PartitionedTable._createOwnPartition oracle conn cls items st).1.trace = true := by
  intro items
  induction items with
  | nil => intro st h; simpa [PartitionedTable._createOwnPartition] using h
  | cons x rest ih =>
    intro st h
    simp only [PartitionedTable._createOwnPartition, partitionWasCreated, execStmt,
      logDebugEv, commitConn, markPartitionCreated]
    repeat' split
    all_goals first
      | (apply ih
         simp [noLockEvents_append, noLockEvents_cons, noLockEvents_nil, isLockEvent, h])
      | simp [noLockEvents_append, noLockEvents_cons, noLockEvents_nil, isLockEvent, h]

theorem createPartitionsLoop_noLock (oracle : Oracle) (conn : Nat)
    (items : List (Int × Int)) :
    ∀ (classes : List TableClass) (st : DbState), noLockEvents st.trace = true →
      noLockEvents (createPartitionsLoop oracle conn items classes st).1.trace = true := by
  intro classes
  induction classes with
  | nil => intro st h; simpa [createPartitionsLoop] using h
  | cons tc rest ih =>
    intro st h
    simp only [createPartitionsLoop]
    rcases hcp : PartitionedTable._createOwnPartition oracle conn tc items st with ⟨st1, rc⟩
    have h1 : noLockEvents st1.trace = true := by
      have hx := createOwnPartition_noLock oracle conn tc items st h
      rw [hcp] at hx
      exact hx
    cases rc with
    | none => simpa using ih st1 h1
    | some e => simpa using h1

theorem createPartitions_noLock (oracle : Oracle) (conn : Nat) (cls : TableClass)
    (iterator : List (Int × Int)) (st : DbState) (h : noLockEvents st.trace = true) :
    noLockEvents (PartitionedTable.createPartitions oracle conn cls iterator st).1.trace
      = true := by
  have h0 : noLockEvents (logDebugEv st).trace = true := by
    simp [logDebugEv, noLockEvents_append, noLockEvents_cons, noLockEvents_nil, isLockEvent, h]
  simp only [PartitionedTable.createPartitions]
  cases getOrderedPartitionList [cls] with
  | none => simpa using h0
  | some classes => simpa using createPartitionsLoop_noLock oracle conn iterator classes _ h0

theorem insertRetry_noLock (oracle : Oracle) (pn : String) (st : DbState)
    (h : noLockEvents st.trace = true) :
    noLockEvents (insertRetry oracle pn st).1.trace = true := by
  simp only [insertRetry, execStmt, logDebugEv]
  split
  all_goals simp [noLockEvents_append, noLockEvents_cons, noLockEvents_nil, isLockEvent, h]

theorem createPartitions_noLock_pair (oracle : Oracle) (conn : Nat) (cls : TableClass)
    (iterator : List (Int × Int)) (st st7 : DbState) (rc : Option PgErr)
    (heq : PartitionedTable.createPartitions oracle conn cls iterator st = (st7, rc))
    (h : noLockEvents st.trace = true) : noLockEvents st7.trace = true := by
  have hx := createPartitions_noLock oracle conn cls iterator st h
  rw [heq] at hx
  exact hx

theorem insertFallback_noLock (oracle : Oracle) (cls : TableClass)
    (dateList : List (Int × Int)) (pn : String) (st : DbState)
    (h : noLockEvents st.trace = true) :
    noLockEvents (insertFallback oracle cls dateList pn st).1.trace = true := by
  simp only [insertFallback, execStmt, logDebugEv, commitConn]
  cases h5 : oracle st.counter (Stmt.rollbackToAndRelease pn) with
  | some e2 =>
    simp [noLockEvents_append, noLockEvents_cons, noLockEvents_nil, isLockEvent, h]
  | none =>
    simp only []
    split
    · rename_i st7 ec heq
      have h7 := createPartitions_noLock_pair _ _ _ _ _ _ _ heq
        (by simp [noLockEvents_append, noLockEvents_cons, noLockEvents_nil, isLockEvent, h])
      split
      · apply insertRetry_noLock
        simp [noLockEvents_append, noLockEvents_cons, noLockEvents_nil, isLockEvent, h7]
      · simpa using h7
    · rename_i st7 heq
      have h7 := createPartitions_noLock_pair _ _ _ _ _ _ _ heq
        (by simp [noLockEvents_append, noLockEvents_cons, noLockEvents_nil, isLockEvent, h])
      apply insertRetry_noLock
      simpa using h7

theorem insert_noLock (oracle : Oracle) (cls : TableClass) (kwargs : Option Int)
    (st : DbState) (h : noLockEvents st.trace = true) :
    noLockEvents (PartitionedTable.insert oracle cls kwargs st).1.trace = true := by
  cases kwargs with
  | none => simpa [PartitionedTable.insert] using h
  | some uid =>
    simp only [PartitionedTable.insert, mondayPairs_point uid, execStmt]
    cases h1 : oracle st.counter
        (Stmt.savepoint (partitionNameOf cls (uid - (uid - 1) % 7))) with
    | some e1 =>
      cases e1 with
      | programming b =>
        simp only [PgErr.isProgramming, if_true]
        apply insertFallback_noLock
        simp [noLockEvents_append, noLockEvents_cons, noLockEvents_nil, isLockEvent, h]
      | otherDatabase =>
        simp [noLockEvents_append, noLockEvents_cons, noLockEvents_nil, isLockEvent, h,
          PgErr.isProgramming]
      | otherError =>
        simp [noLockEvents_append, noLockEvents_cons, noLockEvents_nil, isLockEvent, h,
          PgErr.isProgramming]
    | none =>
      cases h2 : oracle (st.counter + 1)
          (Stmt.insertSql (partitionNameOf cls (uid - (uid - 1) % 7))) with
      | some e2 =>
        cases e2 with
        | programming b =>
          simp only [PgErr.isProgramming, if_true]
          apply insertFallback_noLock
          simp [noLockEvents_append, noLockEvents_cons, noLockEvents_nil, isLockEvent, h]
        | otherDatabase =>
          simp [noLockEvents_append, noLockEvents_cons, noLockEvents_nil, isLockEvent, h,
            PgErr.isProgramming]
        | otherError =>
          simp [noLockEvents_append, noLockEvents_cons, noLockEvents_nil, isLockEvent, h,
            PgErr.isProgramming]
      | none =>
        cases h3 : oracle (st.counter + 1 + 1)
            (Stmt.releaseSavepoint (partitionNameOf cls (uid - (uid - 1) % 7))) with
        | some e3 =>
          cases e3 with
          | programming b =>
            simp only [PgErr.isProgramming, if_true]
            apply insertFallback_noLock
            simp [noLockEvents_append, noLockEvents_cons, noLockEvents_nil, isLockEvent, h]
          | otherDatabase =>
            simp [noLockEvents_append, noLockEvents_cons, noLockEvents_nil, isLockEvent, h,
              PgErr.isProgramming]
          | otherError =>
            simp [noLockEvents_append, noLockEvents_cons, noLockEvents_nil, isLockEvent, h,
              PgErr.isProgramming]
        | none =>
          simp [noLockEvents_append, noLockEvents_cons, noLockEvents_nil, isLockEvent, h]

theorem create_noLock (oracle : Oracle) (cls : TableClass) (st : DbState)
    (h : noLockEvents st.trace = true) :
    noLockEvents (DatabaseObject.create oracle cls st).1.trace = true := by
  simp only [DatabaseObject.create]
  cases getOrderedSetupList [cls] with
  | none => simpa using h
  | some order => simpa using createLoop_noLock oracle order st h

theorem teardownLoop_noLock (oracle : Oracle) :
    ∀ (order : List TableClass) (st : DbState), noLockEvents st.trace = true →
      noLockEvents (teardownLoop oracle order st).1.trace = true := by
  intro order
  induction order with
  | nil => intro st h; simpa [teardownLoop] using h
  | cons c rest ih =>
    intro st h
    simp only [teardownLoop, execStmt]
    repeat' split
    all_goals first
      | (apply ih
         simp [noLockEvents_append, noLockEvents_cons, noLockEvents_nil, isLockEvent, h])
      | simpa using h
      | simp [noLockEvents_append, noLockEvents_cons, noLockEvents_nil, isLockEvent, h]

theorem teardown_noLock (oracle : Oracle) (st : DbState)
    (h : noLockEvents st.trace = true) :
    noLockEvents (teardownDatabase oracle st).trace = true := by
  simp only [teardownDatabase]
  cases getOrderedSetupList [] with
  | none => simp [logErrorEv, rollbackConn, noLockEvents_append, noLockEvents_cons, noLockEvents_nil, isLockEvent, h]
  | some order =>
    simp only []
    rcases htl : teardownLoop oracle order st with ⟨st1, rc⟩
    have h1 : noLockEvents st1.trace = true := by
      have hx := teardownLoop_noLock oracle order st h
      rw [htl] at hx
      exact hx
    cases rc with
    | none =>
      simp [commitConn, noLockEvents_append, noLockEvents_cons, noLockEvents_nil,
        isLockEvent, h1]
    | some e =>
      simp [logErrorEv, rollbackConn, noLockEvents_append, noLockEvents_cons, noLockEvents_nil,
        isLockEvent, h1]

/-- C8 counterexample: a concrete registry mark and check run as plain
set operations with no lock acquisition at all — contradicting "executes
atomically while holding the shared re-entrant mutual-exclusion lock":
`partitionCreationLock` is declared (schema.py line 174) but no code
path acquires it. -/
theorem registry_ops_execute_without_lock :
    (markPartitionCreated dbInit "reports_1").trace = [Ev.registryMark "reports_1"] ∧
    ((markPartitionCreated dbInit "reports_1").trace.contains Ev.lockAcquire) = false ∧
    (partitionWasCreated dbInit "reports_1").1.trace = [Ev.registryCheck "reports_1" false] ∧
    ((partitionWasCreated dbInit "reports_1").1.trace.contains Ev.lockAcquire) = false := by
  decide

/-- C8 (amended): `partitionWasCreated` and `markPartitionCreated` are
plain unsynchronized set operations on the registry, and the declared
re-entrant lock (`PartitionedTable.partitionCreationLock`) is never
acquired on any code path — no run of the partition-creation path, the
insert path, object creation or teardown ever emits a lock acquisition
or release (so, in particular, no lock is ever held across a database
round trip). -/
theorem registry_ops_unsynchronized_lock_unused :
    (∀ (st : DbState) (name : String),
      partitionWasCreated st name =
        ({ st with trace := st.trace ++ [Ev.registryCheck name (st.registry.contains name)] },
         st.registry.contains name) ∧
      markPartitionCreated st name =
        { st with trace := st.trace ++ [Ev.registryMark name],
                  registry := st.registry.insert name }) ∧
    (∀ (oracle : Oracle) (conn : Nat) (cls : TableClass) (items : List (Int × Int))
        (st : DbState), noLockEvents st.trace = true →
      noLockEvents (PartitionedTable._createOwnPartition oracle conn cls items st).1.trace
        = true) ∧
    (∀ (oracle : Oracle) (cls : TableClass) (kwargs : Option Int) (st : DbState),
      noLockEvents st.trace = true →
      noLockEvents (PartitionedTable.insert oracle cls kwargs st).1.trace = true) ∧
    (∀ (oracle : Oracle) (cls : TableClass) (st : DbState),
      noLockEvents st.trace = true →
      noLockEvents (DatabaseObject.create oracle cls st).1.trace = true) ∧
    (∀ (oracle : Oracle) (st : DbState),
      noLockEvents st.trace = true →
      noLockEvents (teardownDatabase oracle st).trace = true) :=
  ⟨fun _ _ => ⟨rfl, rfl⟩,
   fun oracle conn cls items st h => createOwnPartition_noLock oracle conn cls items st h,
   fun oracle cls kwargs st h => insert_noLock oracle cls kwargs st h,
   fun oracle cls st h => create_noLock oracle cls st h,
   fun oracle st h => teardown_noLock oracle st h⟩

/-- Witness for the amended C8: a full insert run (which checks and
marks the registry on the creation path) emits no lock event. -/
theorem registry_ops_unsynchronized_lock_unused_witness :
    noLockEvents (PartitionedTable.insert oracleAllNone TableClass.ReportsTable (some 3)
      dbInit).1.trace = true :=
  registry_ops_unsynchronized_lock_unused.2.2.1 oracleAllNone TableClass.ReportsTable
    (some 3) dbInit rfl

/-! ### C10 -/

/-- The events of a successful batch of checkpointed creation steps,
one savepoint / creation statement / release triple per class. -/
def createBatchEvents : List TableClass → List Ev
  | [] => []
  | c :: rest =>
    Ev.execute 0 (Stmt.savepoint ("creating_" ++ c.name)) ::
    Ev.execute 0 (Stmt.createSql c.name) ::
    Ev.execute 0 (Stmt.releaseSavepoint ("creating_" ++ c.name)) ::
    createBatchEvents rest

theorem createLoop_allOk (oracle : Oracle) (h : ∀ n s, oracle n s = none) :
    ∀ (order : List TableClass) (st : DbState),
      createLoop oracle order st =
        ({ st with trace := st.trace ++ createBatchEvents order,
                   counter := st.counter + 3 * order.length }, none) := by
  intro order
  induction order with
  | nil => intro st; simp [createLoop, createBatchEvents]
  | cons c rest ih =>
    intro st
    simp [createLoop, createStep, execStmt, h, ih, createBatchEvents, List.append_assoc]
    all_goals omega

/-- Decidable check that `getOrderedSetupList` succeeds for a class and
yields a list containing the class, each entry after its setup
dependencies. -/
def setupListCheck (X : TableClass) : Bool :=
  match getOrderedSetupList [X] with
  | some order => order.contains X && depsBeforeBool databaseDependenciesForSetup [] order
  | none => false

/-- C10: for every class registered in `databaseDependenciesForSetup`,
`DatabaseObject.create` computes the ordered transitive setup-dependency
list of the class and runs the checkpointed creation step for every
class in that list — dependencies before dependents, the class itself
included — so one `create` call materializes the class's whole
setup-dependency closure (each prerequisite instantiated as needed). -/
theorem create_materializes_setup_closure :
    ∀ X : TableClass, ∃ order,
      getOrderedSetupList [X] = some order ∧
      order.contains X = true ∧
      depsBeforeBool databaseDependenciesForSetup [] order = true ∧
      ∀ (oracle : Oracle) (st : DbState), (∀ n s, oracle n s = none) →
        DatabaseObject.create oracle X st =
          ({ st with trace := st.trace ++ createBatchEvents order,
                     counter := st.counter + 3 * order.length }, none) := by
  intro X
  have hall : ∀ Y : TableClass, setupListCheck Y = true := by decide
  have hX := hall X
  cases heq : getOrderedSetupList [X] with
  | none => simp [setupListCheck, heq] at hX
  | some order =>
    simp only [setupListCheck, heq, Bool.and_eq_true] at hX
    refine ⟨order, rfl, hX.1, hX.2, ?_⟩
    intro oracle st h
    simp only [DatabaseObject.create, heq]
    exact createLoop_allOk oracle h order st

/-- Witness for C10 at `BranchesView`, whose setup closure is
release_enum, then productdims, then the view itself. -/
theorem create_materializes_setup_closure_witness :
    ∃ order,
      getOrderedSetupList [TableClass.BranchesView] = some order ∧
      order.contains TableClass.BranchesView = true ∧
      depsBeforeBool databaseDependenciesForSetup [] order = true ∧
      DatabaseObject.create oracleAllNone TableClass.BranchesView dbInit =
        ({ dbInit with trace := dbInit.trace ++ createBatchEvents order,
                       counter := dbInit.counter + 3 * order.length }, none) := by
  obtain ⟨order, hA, hB, hC, hD⟩ := create_materializes_setup_closure TableClass.BranchesView
  exact ⟨order, hA, hB, hC, hD oracleAllNone dbInit (fun _ _ => rfl)⟩

end Socorro
